import Mathlib

/-!
Shallow embedding of the exolab-agents FastAPI service (Python) in Lean 4.

Each definition mirrors one Python function of the repository; module and
function names are kept where Lean allows.  Machine reals (Python floats)
are modelled as exact rationals: all numeric strings handled by the code
are produced by the regex `[\d.]+`, and the claims under scrutiny compare
the code's own parses with each other, so IEEE rounding is common to both
sides and cancels.
-/

deriving instance DecidableEq for Except

namespace Exolab

/-- Python exception taxonomy as far as the routes distinguish it:
`exc` is any `Exception` subclass (carrying `str(e)`), `exit` is
`SystemExit` as raised by `sys.exit(code)`.  `except Exception` handlers
catch only `exc`. -/
inductive PyErr where
  | exc (msg : String)
  | exit (code : Nat)
deriving DecidableEq

/-- Outcome of one HTTP request: a successful JSON payload, an
`HTTPException(status, detail)`, or process termination by an uncaught
`SystemExit`. -/
inductive RouteResult (α : Type) where
  | ok (val : α)
  | httpError (status : Nat) (detail : String)
  | processExit (code : Nat)
deriving DecidableEq

/-- The uniform `try: ... except Exception as e: raise HTTPException(500, str(e))`
wrapper present in every route handler.  `SystemExit` is not an
`Exception` subclass in Python, so it escapes the handler. -/
def wrapRoute {α : Type} : Except PyErr α → RouteResult α
  | Except.ok v => RouteResult.ok v
  | Except.error (PyErr.exc m) => RouteResult.httpError 500 m
  | Except.error (PyErr.exit c) => RouteResult.processExit c

/-- Is the outcome an HTTP 500 error? -/
def isHttp500 {α : Type} : RouteResult α → Bool
  | RouteResult.httpError 500 _ => true
  | _ => false

/-! ## Chat message model (langchain message classes used by the repo) -/

/-- The three langchain message classes the application ever stores:
`SystemMessage`, `HumanMessage`, `AIMessage`. -/
inductive MsgRole where
  | system
  | human
  | ai
deriving DecidableEq

structure Message where
  role : MsgRole
  content : String
deriving DecidableEq

/-- `msg.__class__.__name__.replace('Message', '')` for the three stored
message classes. -/
def msgClassName : MsgRole → String
  | MsgRole.system => "System"
  | MsgRole.human => "Human"
  | MsgRole.ai => "AI"

/-- One line of the serialized context:
`f"{msg.__class__.__name__.replace('Message','')}: {msg.content}"`. -/
def formatMessage (m : Message) : String :=
  msgClassName m.role ++ ": " ++ m.content

/-- Python `l[-n:]`: the last `n` elements (all of them when fewer). -/
def lastN {α : Type} (n : Nat) (l : List α) : List α :=
  l.drop (l.length - n)

/-- `get_conversation_context` (identical in `chat/newchatagent.py` and
`chat/chatagent.py`): the persisted store maps a session id to its message
list, `summaries` models membership and content of the in-memory
`summary_memories` dictionary.  With a summary entry the context is one
system message holding the rolling summary followed by the last 5
persisted messages; otherwise the full persisted history. -/
def get_conversation_context (store : String → List Message)
    (summaries : String → Option String) (session_id : String) : List Message :=
  match summaries session_id with
  | some summary =>
      Message.mk MsgRole.system ("Conversation Summary: " ++ summary)
        :: lastN 5 (store session_id)
  | none => store session_id

/-- `get_agent_input`: the context serialized one message per line. -/
def get_agent_input (store : String → List Message)
    (summaries : String → Option String) (session_id : String) : String :=
  String.intercalate "\n"
    ((get_conversation_context store summaries session_id).map formatMessage)

/-! ## Message-retrieval endpoints (claim C3) -/

/-- The `ChatHistory` stub class defined inside `chat/chat.py`'s
`get_chat_history`: its body ignores the session id and returns
`ChatHistory(messages=[])`. -/
structure ChatHistoryStub where
  messages : List Message
deriving DecidableEq

/-- `chat/chat.py` `get_chat_history`: always the empty history. -/
def chatpy_get_chat_history (_session_id : String) : ChatHistoryStub :=
  ChatHistoryStub.mk []

structure GetMessagesResponse where
  session_id : String
  messages : List String
deriving DecidableEq

/-- `POST /chat/getmessages` (`chat/chat.py` `get_messages`). -/
def chatpy_get_messages (session_id : String) : RouteResult GetMessagesResponse :=
  wrapRoute (Except.ok
    (GetMessagesResponse.mk session_id
      ((chatpy_get_chat_history session_id).messages.map Message.content)))

/-- Role label used by `chat/chatagent.py` `get_messages`. -/
def roleLabel : MsgRole → String
  | MsgRole.system => "system"
  | MsgRole.human => "user"
  | MsgRole.ai => "agent"

structure RoleMessage where
  role : String
  content : String
deriving DecidableEq

structure ChatMessagesResponse where
  session_id : String
  history : List RoleMessage
deriving DecidableEq

/-- `GET /chat/messages` (`chat/chatagent.py` `get_messages`): reads the
persisted history and labels each message with its role. -/
def chatagent_get_messages (store : String → List Message)
    (session_id : String) : RouteResult ChatMessagesResponse :=
  wrapRoute (Except.ok
    (ChatMessagesResponse.mk session_id
      ((store session_id).map (fun m => RoleMessage.mk (roleLabel m.role) m.content))))

/-! ## Diagram size regex (`diagrams/diagrams.py`, `diagrams/pngcreator.py`)

The pattern is `%%\s*Diagram Size:\s*([\d.]+)\s*x\s*([\d.]+)` searched with
`re.search` (leftmost match).  For this pattern greedy matching never
backtracks (shrinking a `[\d.]+` or `\s*` run always leaves a character the
next pattern element rejects), so a maximal-munch scanner is an exact model.
-/

/-- ASCII characters matched by Python's `\s`. -/
def isPySpace (c : Char) : Bool :=
  c = ' ' || c = '\t' || c = '\n' || c = '\r' || c = Char.ofNat 11 || c = Char.ofNat 12

/-- Characters matched by `[\d.]`. -/
def isNumChar (c : Char) : Bool :=
  c.isDigit || c = '.'

/-- Drop the maximal run of `\s` characters (`\s*`). -/
def dropSpaces : List Char → List Char
  | [] => []
  | c :: rest => if isPySpace c then dropSpaces rest else c :: rest

/-- `\s+`: at least one space character, then the maximal run. -/
def dropSpaces1 : List Char → Option (List Char)
  | [] => none
  | c :: rest => if isPySpace c then some (dropSpaces rest) else none

/-- Split off the maximal run of `[\d.]` characters. -/
def takeNumChars : List Char → List Char × List Char
  | [] => ([], [])
  | c :: rest =>
    if isNumChar c then
      let p := takeNumChars rest
      (c :: p.1, p.2)
    else ([], c :: rest)

/-- Consume an exact literal, or fail. -/
def dropLiteral : List Char → List Char → Option (List Char)
  | [], l => some l
  | _ :: _, [] => none
  | a :: la, b :: lb => if a = b then dropLiteral la lb else none

/-- Match `%%\s*Diagram Size:\s*([\d.]+)\s*x\s*([\d.]+)` at the head of the
input; on success return the two captured number strings. -/
def matchSizeAt (l : List Char) : Option (String × String) := do
  let r1 ← dropLiteral "%%".data l
  let r2 ← dropLiteral "Diagram Size:".data (dropSpaces r1)
  let p1 := takeNumChars (dropSpaces r2)
  if p1.1.isEmpty then none else
  let r3 ← dropLiteral "x".data (dropSpaces p1.2)
  let p2 := takeNumChars (dropSpaces r3)
  if p2.1.isEmpty then none else
  some (String.mk p1.1, String.mk p2.1)

/-- `re.search`: try the matcher at every start position, leftmost first. -/
def searchWith {α : Type} (m : List Char → Option α) : List Char → Option α
  | [] => m []
  | c :: rest =>
    match m (c :: rest) with
    | some r => some r
    | none => searchWith m rest

/-- First match of the diagram-size pattern in a string. -/
def searchDiagramSize (s : String) : Option (String × String) :=
  searchWith matchSizeAt s.data

/-- Numeric value of a digit string. -/
def digitsToNat (ds : List Char) : Nat :=
  ds.foldl (fun acc c => 10 * acc + (c.toNat - '0'.toNat)) 0

/-- Split a character list at every dot (Python `str.split('.')`). -/
def splitOnDot : List Char → List (List Char)
  | [] => [[]]
  | c :: rest =>
    let r := splitOnDot rest
    if c = '.' then [] :: r
    else
      match r with
      | [] => [[c]]
      | h :: t => (c :: h) :: t

/-- Python `float()` on a string made of digits and dots (the only shape the
regex capture groups can produce), with the value taken exactly as a
rational.  Accepts `"12"`, `"12."`, `".5"`, `"1.5"`; raises `ValueError`
(modelled as `none`) on an empty string or more than one dot or no digit. -/
def parsePyFloat (s : String) : Option ℚ :=
  match splitOnDot s.data with
  | [intPart] =>
    if intPart ≠ [] ∧ intPart.all Char.isDigit then
      some (digitsToNat intPart)
    else none
  | [intPart, fracPart] =>
    if (intPart ++ fracPart) ≠ [] ∧ (intPart ++ fracPart).all Char.isDigit then
      some ((digitsToNat intPart : ℚ) +
        (digitsToNat fracPart : ℚ) / (10 : ℚ) ^ fracPart.length)
    else none
  | _ => none

/-- `diagrams/pngcreator.py` `get_diagram_size`: search the TeX content for
the size comment; `sys.exit(1)` when absent, `ValueError` when a captured
group is not a valid float, else the parsed pair. -/
def pngcreator_get_diagram_size (content : String) : Except PyErr (ℚ × ℚ) :=
  match searchDiagramSize content with
  | none => Except.error (PyErr.exit 1)
  | some (ws, hs) =>
    match parsePyFloat ws with
    | none => Except.error (PyErr.exc ("could not convert string to float: " ++ ws))
    | some w =>
      match parsePyFloat hs with
      | none => Except.error (PyErr.exc ("could not convert string to float: " ++ hs))
      | some h => Except.ok (w, h)

/-- `diagrams/diagrams.py` `get_diagram_size`: same search, but the code
adds 200 to each parsed dimension before returning. -/
def diagrams_get_diagram_size (content : String) : Except PyErr (ℚ × ℚ) :=
  match searchDiagramSize content with
  | none => Except.error (PyErr.exit 1)
  | some (ws, hs) =>
    match parsePyFloat ws with
    | none => Except.error (PyErr.exc ("could not convert string to float: " ++ ws))
    | some w =>
      match parsePyFloat hs with
      | none => Except.error (PyErr.exc ("could not convert string to float: " ++ hs))
      | some h => Except.ok (w + 200, h + 200)

/-! ## Diagram generation route (`diagrams/diagrams.py`) -/

structure AxodrawDiagramOutput where
  document_content : String
  diagram_width : ℚ
  diagram_height : ℚ
deriving DecidableEq

/-- `parse_axodraw_output`: keep the whole model output as
`document_content`, extract width and height from the first size comment;
raise `ValueError` when the comment is missing. -/
def parse_axodraw_output (output : String) : Except PyErr AxodrawDiagramOutput :=
  match searchDiagramSize output with
  | none => Except.error (PyErr.exc "Diagram size comment not found in the output.")
  | some (ws, hs) =>
    match parsePyFloat ws with
    | none => Except.error (PyErr.exc ("could not convert string to float: " ++ ws))
    | some w =>
      match parsePyFloat hs with
      | none => Except.error (PyErr.exc ("could not convert string to float: " ++ hs))
      | some h => Except.ok (AxodrawDiagramOutput.mk output w h)

/-- `generate_axodraw_diagram_o3`: the hosted model call is an input
(`llm`); an exception there is an `Exception` with its text. -/
def generate_axodraw_diagram_o3 (llm : Except String String) :
    Except PyErr AxodrawDiagramOutput :=
  match llm with
  | Except.error m => Except.error (PyErr.exc m)
  | Except.ok out => parse_axodraw_output out

/-- `POST /diagram/generate`. -/
def generate_diagram (llm : Except String String) : RouteResult AxodrawDiagramOutput :=
  wrapRoute (generate_axodraw_diagram_o3 llm)

/-! ## PNG pipeline route (`diagrams/diagrams.py` `generate_diagram_png`) -/

/-- External-world inputs of one `POST /diagram/generate/png` request: the
model output and the success of each shell command the pipeline runs, plus
the text `pdfinfo` prints. -/
structure PngEnv where
  llm : Except String String
  pdflatex1 : Bool
  axohelp : Bool
  pdflatex2 : Bool
  pdfinfoOk : Bool
  pdfinfoStdout : String
  gs : Bool
  convert : Bool

/-- `run_command`: `subprocess.run(check=True)`; on `CalledProcessError`
the code prints and calls `sys.exit(1)`. -/
def run_command (success : Bool) : Except PyErr Unit :=
  if success then Except.ok () else Except.error (PyErr.exit 1)

/-- `compile_latex`: pdflatex, axohelp, pdflatex. -/
def compile_latex (env : PngEnv) : Except PyErr Unit := do
  run_command env.pdflatex1
  run_command env.axohelp
  run_command env.pdflatex2

/-- Match `Page size:\s+([\d.]+)\s+x\s+([\d.]+)\s+pts` at the head. -/
def matchPageSizeAt (l : List Char) : Option (String × String) := do
  let r1 ← dropLiteral "Page size:".data l
  let r2 ← dropSpaces1 r1
  let p1 := takeNumChars r2
  if p1.1.isEmpty then none else
  let r3 ← dropSpaces1 p1.2
  let r4 ← dropLiteral "x".data r3
  let r5 ← dropSpaces1 r4
  let p2 := takeNumChars r5
  if p2.1.isEmpty then none else
  let r6 ← dropSpaces1 p2.2
  let _ ← dropLiteral "pts".data r6
  some (String.mk p1.1, String.mk p2.1)

/-- `get_page_size`: run `pdfinfo` (failure exits), search its stdout for
the page size (no match exits), parse the floats (`ValueError` possible). -/
def get_page_size (env : PngEnv) : Except PyErr (ℚ × ℚ) :=
  if env.pdfinfoOk = false then Except.error (PyErr.exit 1)
  else
    match searchWith matchPageSizeAt env.pdfinfoStdout.data with
    | none => Except.error (PyErr.exit 1)
    | some (ws, hs) =>
      match parsePyFloat ws with
      | none => Except.error (PyErr.exc ("could not convert string to float: " ++ ws))
      | some w =>
        match parsePyFloat hs with
        | none => Except.error (PyErr.exc ("could not convert string to float: " ++ hs))
        | some h => Except.ok (w, h)

/-- Body of `generate_diagram_png` before the route wrapper: generate the
document, write it, compile, read sizes, convert, return the PNG file
name.  Writing `TEX_FILE` and reading it back yields the document text. -/
def generate_diagram_png (env : PngEnv) : Except PyErr String := do
  let d ← generate_axodraw_diagram_o3 env.llm
  compile_latex env
  let _pageSize ← get_page_size env
  let _diagSize ← diagrams_get_diagram_size d.document_content
  run_command env.gs
  run_command env.convert
  pure "mydiagram.png"

/-- `POST /diagram/generate/png`. -/
def generate_diagram_png_route (env : PngEnv) : RouteResult String :=
  wrapRoute (generate_diagram_png env)

/-! ## Batch generation (`questions/questions.py`, `explanations.py`,
`subtopics.py`) -/

/-- `asyncio.gather` over already-scheduled tasks: every coroutine runs;
if any raises, the exception propagates and the successful results are
discarded (modelled deterministically as the first error in task order). -/
def gatherResults {ε α : Type} : List (Except ε α) → Except ε (List α)
  | [] => Except.ok []
  | r :: rest =>
    match r with
    | Except.error e => Except.error e
    | Except.ok v =>
      match gatherResults rest with
      | Except.ok vs => Except.ok (v :: vs)
      | Except.error e => Except.error e

structure LectureSubtopicsOutputModel where
  topic : String
  subtopics : List String
deriving DecidableEq

structure ExplanationItem where
  topic : String
  subtopic : String
  explanation : String
deriving DecidableEq

def difficulties : List String := ["Easy", "Medium", "Hard"]

def question_types : List String := ["Multiple Choice", "Open Answer"]

/-- Arguments of one `generate_question` call. -/
structure QuestionTask where
  topic : String
  subtopic : String
  other_subtopics : List String
  difficulty : String
  question_type : String
  subtopic_explanation : String
deriving DecidableEq

structure QuestionGenerationOutput where
  topic : String
  subtopic : String
  difficulty : String
  question_type : String
  question : String
  answers : List String
  correct_answer : String
  explanation : String
deriving DecidableEq

/-- `{(item.topic, item.subtopic): item.explanation for item in explanations}`
followed by `.get(key, "")`: later duplicates overwrite earlier ones, a
missing key yields the empty string. -/
def build_explanation_map (items : List ExplanationItem) : String × String → String :=
  fun key =>
    ((items.reverse.find? fun it => it.topic == key.1 && it.subtopic == key.2).map
      ExplanationItem.explanation).getD ""

/-- The task list built by `run_question_generation`'s nested loops: one
`generate_question` call per subtopic occurrence, difficulty and question
type, in loop order. -/
def run_question_generation_tasks (subtopics_list : List LectureSubtopicsOutputModel)
    (explanation_map : String × String → String) : List QuestionTask :=
  subtopics_list.flatMap fun item =>
    item.subtopics.flatMap fun sub =>
      difficulties.flatMap fun difficulty =>
        question_types.map fun q_type =>
          QuestionTask.mk item.topic sub item.subtopics difficulty q_type
            (explanation_map (item.topic, sub))

/-- `run_question_generation`: gather over one model call per task; the
call behaviour is the oracle. -/
def run_question_generation (subtopics_list : List LectureSubtopicsOutputModel)
    (explanation_map : String × String → String)
    (oracle : QuestionTask → Except String QuestionGenerationOutput) :
    Except String (List QuestionGenerationOutput) :=
  gatherResults ((run_question_generation_tasks subtopics_list explanation_map).map oracle)

/-- `POST /questions/generate`. -/
def generate_questions_route (data : List LectureSubtopicsOutputModel)
    (explanations : List ExplanationItem)
    (oracle : QuestionTask → Except String QuestionGenerationOutput) :
    RouteResult (List QuestionGenerationOutput) :=
  wrapRoute
    (match run_question_generation data (build_explanation_map explanations) oracle with
    | Except.ok qs => Except.ok qs
    | Except.error m => Except.error (PyErr.exc m))

structure SubtopicExplanationOutput where
  topic : String
  subtopic : String
  explanation : String
deriving DecidableEq

/-- Arguments of one `generate_explanation` call. -/
structure ExplanationTask where
  topic : String
  subtopic : String
  other_subtopics : List String
deriving DecidableEq

/-- The task list built by `run_explanation_generation`: one call per
subtopic occurrence, in loop order. -/
def run_explanation_generation_tasks (subtopics_list : List LectureSubtopicsOutputModel) :
    List ExplanationTask :=
  subtopics_list.flatMap fun item =>
    item.subtopics.map fun sub => ExplanationTask.mk item.topic sub item.subtopics

/-- `run_explanation_generation`. -/
def run_explanation_generation (subtopics_list : List LectureSubtopicsOutputModel)
    (oracle : ExplanationTask → Except String SubtopicExplanationOutput) :
    Except String (List SubtopicExplanationOutput) :=
  gatherResults ((run_explanation_generation_tasks subtopics_list).map oracle)

/-- `POST /explanations/generate`. -/
def generate_subtopic_explanations_route (data : List LectureSubtopicsOutputModel)
    (oracle : ExplanationTask → Except String SubtopicExplanationOutput) :
    RouteResult (List SubtopicExplanationOutput) :=
  wrapRoute
    (match run_explanation_generation data oracle with
    | Except.ok es => Except.ok es
    | Except.error m => Except.error (PyErr.exc m))

structure LectureSubtopicsOutput where
  topic : String
  subtopics : List String
deriving DecidableEq

/-- Prompt built by `subtopics.py` `extract_subtopics`. -/
def extract_subtopics_prompt (topic : String) (resources : List String) : String :=
  "Topic: " ++ topic ++ "\nResources:\n- " ++ String.intercalate "\n- " resources

/-- `run_subtopic_extraction`: one `extract_subtopics` call per topic of the
request, the same resource list for each; the agent sees the prompt built
from topic and resources, its behaviour is the oracle. -/
def run_subtopic_extraction (topics : List String) (resources : List String)
    (oracle : String → Except String LectureSubtopicsOutput) :
    Except String (List LectureSubtopicsOutput) :=
  gatherResults (topics.map fun t => oracle (extract_subtopics_prompt t resources))

/-- The prompts of the calls `run_subtopic_extraction` issues: one per
topic, for all `n` topics. -/
def run_subtopic_extraction_calls (topics : List String) (resources : List String) :
    List String :=
  topics.map fun t => extract_subtopics_prompt t resources

/-- `POST /subtopics/extract`: note the `[:10]` truncation applied to the
result list before serialization. -/
def extract_lecture_subtopics (topics : List String) (resources : List String)
    (oracle : String → Except String LectureSubtopicsOutput) :
    RouteResult (List LectureSubtopicsOutput) :=
  wrapRoute
    (match run_subtopic_extraction topics resources oracle with
    | Except.ok results => Except.ok (results.take 10)
    | Except.error m => Except.error (PyErr.exc m))

/-! ## Topics route (`topics.py`) -/

structure CourseContentOutput where
  topics : List String
  description : String
  recourses : List String
deriving DecidableEq

/-- `POST /topics/extract`: on success the handler returns
`output.topics[:10]`, `output.description`, `output.recourses`. -/
def extract_lecture_topics (llm : Except String CourseContentOutput) :
    RouteResult CourseContentOutput :=
  wrapRoute
    (match llm with
    | Except.error m => Except.error (PyErr.exc m)
    | Except.ok output =>
      Except.ok (CourseContentOutput.mk (output.topics.take 10)
        output.description output.recourses))

/-! ## Chat route (`chat/chat.py` `chat`) -/

structure ChatResponse where
  role : String
  content : String
deriving DecidableEq

/-- `POST /chat`: forwards the model reply or turns any exception into a
500 with its text. -/
def chat_route (llm : Except String ChatResponse) : RouteResult ChatResponse :=
  wrapRoute
    (match llm with
    | Except.error m => Except.error (PyErr.exc m)
    | Except.ok r => Except.ok r)

/-! ## Rate limiter usage (claim C5)

`aiolimiter.AsyncLimiter` instances exist in exactly two modules.  Each
function that reaches a hosted AI API is modelled by its event trace:
limiter acquisition and release (the `async with limiter:` block) and the
outbound calls it encloses or fails to enclose.  The traces transcribe the
bodies of the corresponding Python functions. -/

structure RateLimiter where
  max_rate : Nat
  time_period : Nat
deriving DecidableEq

/-- `subtopics.py` line 41. -/
def subtopics_limiter : RateLimiter := RateLimiter.mk 60 60

/-- `diagrams/diagrams.py` line 268. -/
def diagrams_limiter : RateLimiter := RateLimiter.mk 60 60

inductive AgentEvent where
  | acquire (limiterName : String)
  | release (limiterName : String)
  | llmCall (agent : String)
deriving DecidableEq

/-- `subtopics.py` `extract_subtopics`: `async with limiter:` around
`Runner.run(agent_subtopics, ...)`. -/
def extract_subtopics_events : List AgentEvent :=
  [AgentEvent.acquire "subtopics.limiter", AgentEvent.llmCall "agent_subtopics",
   AgentEvent.release "subtopics.limiter"]

/-- `diagrams/diagrams.py` `generate_axodraw_diagram_o3`: `async with
limiter:` around `Runner.run(agent_axodraw_o3, ...)`. -/
def generate_axodraw_diagram_o3_events : List AgentEvent :=
  [AgentEvent.acquire "diagrams.limiter", AgentEvent.llmCall "agent_axodraw_o3",
   AgentEvent.release "diagrams.limiter"]

/-- `questions/questions.py` `generate_question`: bare `Runner.run`. -/
def generate_question_events : List AgentEvent :=
  [AgentEvent.llmCall "agent_questions"]

/-- `explanations.py` `generate_explanation`: bare `Runner.run`. -/
def generate_explanation_events : List AgentEvent :=
  [AgentEvent.llmCall "agent_explanations"]

/-- `topics.py` `run_course_agent`: bare `Runner.run`. -/
def run_course_agent_events : List AgentEvent :=
  [AgentEvent.llmCall "agent"]

/-- `chat/chat.py` `generate_chat_response`: bare `Runner.run`. -/
def generate_chat_response_events : List AgentEvent :=
  [AgentEvent.llmCall "agent_chat"]

/-- `chat/chatagent.py` `run_chat_agent`: bare `Runner.run`. -/
def chatagent_run_chat_agent_events : List AgentEvent :=
  [AgentEvent.llmCall "chat_agent"]

/-- `chat/chatagent.py` `get_embedding`: bare `openai.embeddings.create`. -/
def chatagent_get_embedding_events : List AgentEvent :=
  [AgentEvent.llmCall "openai.embeddings.create"]

/-- `chat/newchatagent.py` `run_chat_agent`: bare `Runner.run`. -/
def newchat_run_chat_agent_events : List AgentEvent :=
  [AgentEvent.llmCall "chat_agent"]

/-- `images/images.py` `generate_image`: bare `client.images.generate`. -/
def generate_image_events : List AgentEvent :=
  [AgentEvent.llmCall "client.images.generate"]

/-- `images/images.py` `run_image_search_agent`: bare `Runner.run`. -/
def run_image_search_agent_events : List AgentEvent :=
  [AgentEvent.llmCall "agent_image_searcher"]

/-- `recourses.py` `run_toc_agent`: bare `Runner.run`. -/
def run_toc_agent_events : List AgentEvent :=
  [AgentEvent.llmCall "agent_toc_searcher"]

/-- `videos/videos.py`: bare `client.generations.create`. -/
def generate_video_events : List AgentEvent :=
  [AgentEvent.llmCall "client.generations.create"]

/-- `vectorization/embeddings.py`: bare `openai.embeddings.create`. -/
def vectorization_get_embedding_events : List AgentEvent :=
  [AgentEvent.llmCall "openai.embeddings.create"]

/-- `biolinks/biolinks.py`: bare `openai.embeddings.create`. -/
def biolinks_get_embedding_events : List AgentEvent :=
  [AgentEvent.llmCall "openai.embeddings.create"]

/-- All outbound AI call sites of the repository, by Python path. -/
def llmCallSites : List (String × List AgentEvent) :=
  [("subtopics.extract_subtopics", extract_subtopics_events),
   ("diagrams.diagrams.generate_axodraw_diagram_o3", generate_axodraw_diagram_o3_events),
   ("questions.questions.generate_question", generate_question_events),
   ("explanations.generate_explanation", generate_explanation_events),
   ("topics.run_course_agent", run_course_agent_events),
   ("chat.chat.generate_chat_response", generate_chat_response_events),
   ("chat.chatagent.run_chat_agent", chatagent_run_chat_agent_events),
   ("chat.chatagent.get_embedding", chatagent_get_embedding_events),
   ("chat.newchatagent.run_chat_agent", newchat_run_chat_agent_events),
   ("images.images.generate_image", generate_image_events),
   ("images.images.run_image_search_agent", run_image_search_agent_events),
   ("recourses.run_toc_agent", run_toc_agent_events),
   ("videos.videos.generate_video", generate_video_events),
   ("vectorization.embeddings.get_embedding", vectorization_get_embedding_events),
   ("biolinks.biolinks.get_embedding", biolinks_get_embedding_events)]

/-- Scan a trace with the number of currently held limiters; every
`llmCall` must occur while at least one limiter is held. -/
def callsUnderLimiter : List AgentEvent → Nat → Bool
  | [], _ => true
  | AgentEvent.acquire _ :: rest, n => callsUnderLimiter rest (n + 1)
  | AgentEvent.release _ :: rest, n => callsUnderLimiter rest (n - 1)
  | AgentEvent.llmCall _ :: rest, n => decide (0 < n) && callsUnderLimiter rest n

/-- Does every outbound call of the trace happen under a held limiter? -/
def allCallsLimited (evs : List AgentEvent) : Bool :=
  callsUnderLimiter evs 0

/-! ## Helper lemmas -/

theorem lastN_eq_self {α : Type} {n : Nat} {l : List α} (h : l.length ≤ n) :
    lastN n l = l := by
  unfold lastN
  rw [Nat.sub_eq_zero_of_le h, List.drop_zero]

theorem lastN_length {α : Type} (n : Nat) (l : List α) :
    (lastN n l).length = min l.length n := by
  unfold lastN
  rw [List.length_drop]
  omega

theorem wrapRoute_classify {α : Type} (comp : Except PyErr α) :
    (∃ v, wrapRoute comp = RouteResult.ok v)
    ∨ (∃ m, wrapRoute comp = RouteResult.httpError 500 m)
    ∨ (∃ c, wrapRoute comp = RouteResult.processExit c) := by
  rcases comp with e | v
  · rcases e with m | c
    · exact Or.inr (Or.inl ⟨m, rfl⟩)
    · exact Or.inr (Or.inr ⟨c, rfl⟩)
  · exact Or.inl ⟨v, rfl⟩

theorem gatherResults_ok_length {ε α : Type} :
    ∀ {rs : List (Except ε α)} {vs : List α},
      gatherResults rs = Except.ok vs → vs.length = rs.length := by
  intro rs
  induction rs with
  | nil =>
    intro vs h
    simp only [gatherResults] at h
    cases h
    rfl
  | cons r rest ih =>
    intro vs h
    simp only [gatherResults] at h
    rcases r with e | v
    · cases h
    · rcases hrest : gatherResults rest with e' | vs'
      · rw [hrest] at h
        cases h
      · rw [hrest] at h
        cases h
        simp [ih hrest]

theorem gatherResults_error_of_mem {ε α : Type} :
    ∀ {rs : List (Except ε α)} {e : ε},
      Except.error e ∈ rs → ∃ e', gatherResults rs = Except.error e' := by
  intro rs
  induction rs with
  | nil =>
    intro e h
    cases h
  | cons r rest ih =>
    intro e h
    rcases r with e2 | v
    · exact ⟨e2, by simp [gatherResults]⟩
    · rcases List.mem_cons.mp h with h1 | h1
      · cases h1
      · rcases ih h1 with ⟨e', he'⟩
        exact ⟨e', by simp [gatherResults, he']⟩

/-! ## Claim theorems -/

/-- C1: for a session with a summary entry, the conversation context is one
system message carrying the rolling summary followed by the last 5
persisted messages (all of them when fewer than 5 exist); without a
summary entry, the context is the full persisted history; `get_agent_input`
serializes the context one message per line. -/
theorem C1_conversation_context (store : String → List Message)
    (summaries : String → Option String) (session_id : String) :
    (∀ s, summaries session_id = some s →
      get_conversation_context store summaries session_id =
        Message.mk MsgRole.system ("Conversation Summary: " ++ s)
          :: lastN 5 (store session_id)
      ∧ (lastN 5 (store session_id)).length = min (store session_id).length 5
      ∧ ((store session_id).length ≤ 5 → lastN 5 (store session_id) = store session_id))
    ∧ (summaries session_id = none →
      get_conversation_context store summaries session_id = store session_id)
    ∧ get_agent_input store summaries session_id =
      String.intercalate "\n"
        ((get_conversation_context store summaries session_id).map formatMessage) := by
  refine ⟨?_, ?_, rfl⟩
  · intro s hs
    refine ⟨?_, lastN_length 5 (store session_id), fun h => lastN_eq_self h⟩
    unfold get_conversation_context
    rw [hs]
  · intro hn
    unfold get_conversation_context
    rw [hn]

theorem C1_conversation_context_witness :
    (fun _ : String => (some "sum" : Option String)) "sess" = some "sum"
    ∧ get_conversation_context
        (fun _ => [Message.mk MsgRole.human "m1", Message.mk MsgRole.ai "m2",
          Message.mk MsgRole.human "m3", Message.mk MsgRole.ai "m4",
          Message.mk MsgRole.human "m5", Message.mk MsgRole.ai "m6",
          Message.mk MsgRole.human "m7"])
        (fun _ => some "sum") "sess" =
      Message.mk MsgRole.system ("Conversation Summary: " ++ "sum")
        :: lastN 5 [Message.mk MsgRole.human "m1", Message.mk MsgRole.ai "m2",
          Message.mk MsgRole.human "m3", Message.mk MsgRole.ai "m4",
          Message.mk MsgRole.human "m5", Message.mk MsgRole.ai "m6",
          Message.mk MsgRole.human "m7"] :=
  ⟨rfl,
    ((C1_conversation_context
      (fun _ => [Message.mk MsgRole.human "m1", Message.mk MsgRole.ai "m2",
        Message.mk MsgRole.human "m3", Message.mk MsgRole.ai "m4",
        Message.mk MsgRole.human "m5", Message.mk MsgRole.ai "m6",
        Message.mk MsgRole.human "m7"])
      (fun _ => some "sum") "sess").1 "sum" rfl).1⟩

/-- C3 fails on the code: `chat/chat.py`'s `/chat/getmessages` endpoint uses
the module's stub `get_chat_history`, which ignores persistence and always
yields an empty message list, so a session with persisted messages gets
back an empty list from this endpoint. -/
theorem C3_counterexample :
    chatpy_get_messages "sess" = RouteResult.ok (GetMessagesResponse.mk "sess" [])
    ∧ ¬ (∀ (store : String → List Message) (session_id : String),
        chatpy_get_messages session_id =
          RouteResult.ok (GetMessagesResponse.mk session_id
            ((store session_id).map Message.content))) := by
  refine ⟨rfl, ?_⟩
  intro h
  have h1 := h (fun _ => [Message.mk MsgRole.human "hello"]) "sess"
  have h2 : chatpy_get_messages "sess" =
      RouteResult.ok (GetMessagesResponse.mk "sess" []) := rfl
  rw [h2] at h1
  cases h1

/-- C3 amended: the `/chat/messages` endpoint (`chat/chatagent.py`) returns
exactly the persisted messages of the session, in stored order, labelled
with their roles; the `/chat/getmessages` endpoint (`chat/chat.py`),
however, is wired to a stub history and always returns an empty message
list, whatever is persisted. -/
theorem C3_message_retrieval (store : String → List Message) (session_id : String) :
    chatagent_get_messages store session_id =
      RouteResult.ok (ChatMessagesResponse.mk session_id
        ((store session_id).map fun m => RoleMessage.mk (roleLabel m.role) m.content))
    ∧ (∀ resp, chatagent_get_messages store session_id = RouteResult.ok resp →
        resp.history.map RoleMessage.content = (store session_id).map Message.content
        ∧ resp.history.length = (store session_id).length)
    ∧ chatpy_get_messages session_id =
      RouteResult.ok (GetMessagesResponse.mk session_id []) := by
  refine ⟨rfl, ?_, rfl⟩
  intro resp h
  have hx : chatagent_get_messages store session_id =
      RouteResult.ok (ChatMessagesResponse.mk session_id
        ((store session_id).map fun m => RoleMessage.mk (roleLabel m.role) m.content)) := rfl
  rw [hx] at h
  injection h with h1
  rw [← h1]
  constructor
  · simp [List.map_map]
  · simp

theorem C3_message_retrieval_witness :
    chatagent_get_messages (fun _ => [Message.mk MsgRole.human "hi"]) "sess" =
      RouteResult.ok (ChatMessagesResponse.mk "sess" [RoleMessage.mk "user" "hi"])
    ∧ ([RoleMessage.mk "user" "hi"].map RoleMessage.content =
        [Message.mk MsgRole.human "hi"].map Message.content) :=
  ⟨(C3_message_retrieval (fun _ => [Message.mk MsgRole.human "hi"]) "sess").1,
    (((C3_message_retrieval (fun _ => [Message.mk MsgRole.human "hi"]) "sess").2.1
      (ChatMessagesResponse.mk "sess" [RoleMessage.mk "user" "hi"])
      ((C3_message_retrieval (fun _ => [Message.mk MsgRole.human "hi"]) "sess").1)).1)⟩

/-- C2 fails on the code: in the PNG pipeline a failing external command
makes `run_command` call `sys.exit(1)`; the raised `SystemExit` is not an
`Exception`, escapes the route's handler, and the request terminates the
process instead of answering HTTP 500.  Concretely, with a valid generated
document and a failing first `pdflatex` run the route ends in
`processExit 1`. -/
theorem C2_counterexample :
    generate_diagram_png_route
      (PngEnv.mk (Except.ok "%% Diagram Size: 150 x 250") false true true true "" true true)
      = RouteResult.processExit 1
    ∧ isHttp500 (generate_diagram_png_route
        (PngEnv.mk (Except.ok "%% Diagram Size: 150 x 250") false true true true "" true true))
      = false := by
  constructor
  · rfl
  · rfl

/-- C2 amended: every exception that is a Python `Exception` is surfaced as
HTTP 500 carrying the exception text, and routes without shell commands
(such as `/chat`) answer only 200 or 500; but the PNG pipeline's
subprocess failures and missing size markers invoke `sys.exit`, whose
`SystemExit` escapes the `except Exception` handler, so those requests
terminate the process instead. -/
theorem C2_error_policy :
    (∀ env : PngEnv,
      (∃ v, generate_diagram_png_route env = RouteResult.ok v)
      ∨ (∃ m, generate_diagram_png_route env = RouteResult.httpError 500 m)
      ∨ (∃ c, generate_diagram_png_route env = RouteResult.processExit c))
    ∧ (∀ llm : Except String ChatResponse,
      (∃ v, chat_route llm = RouteResult.ok v)
      ∨ (∃ m, chat_route llm = RouteResult.httpError 500 m))
    ∧ (∀ m : String, chat_route (Except.error m) = RouteResult.httpError 500 m)
    ∧ (∀ (env : PngEnv) (m : String),
        generate_diagram_png env = Except.error (PyErr.exc m) →
        generate_diagram_png_route env = RouteResult.httpError 500 m) := by
  refine ⟨fun env => wrapRoute_classify _, ?_, fun m => rfl, ?_⟩
  · intro llm
    rcases llm with m | r
    · exact Or.inr ⟨m, rfl⟩
    · exact Or.inl ⟨r, rfl⟩
  · intro env m h
    unfold generate_diagram_png_route
    rw [h]
    rfl

theorem C2_error_policy_witness :
    chat_route (Except.error "boom") = RouteResult.httpError 500 "boom"
    ∧ generate_diagram_png_route
        (PngEnv.mk (Except.ok "no size comment") true true true true "" true true)
      = RouteResult.httpError 500 "Diagram size comment not found in the output." :=
  ⟨C2_error_policy.2.2.1 "boom",
    C2_error_policy.2.2.2
      (PngEnv.mk (Except.ok "no size comment") true true true true "" true true)
      "Diagram size comment not found in the output." (by decide)⟩

/-- C5 fails on the code: `generate_question` (one of the claim's own call
sites) issues its model call with no rate limiter held; only the subtopic
extractor and the o3 diagram generator wrap their calls in an
`AsyncLimiter`. -/
theorem C5_counterexample :
    ("questions.questions.generate_question", generate_question_events) ∈ llmCallSites
    ∧ allCallsLimited generate_question_events = false
    ∧ ¬ (∀ site ∈ llmCallSites, allCallsLimited site.2 = true) := by
  refine ⟨by decide, by decide, ?_⟩
  intro hall
  exact absurd
    (hall ("questions.questions.generate_question", generate_question_events) (by decide))
    (by decide)

/-- C5 amended: exactly two outbound call sites hold a rate limiter while
calling the AI provider — subtopic extraction and o3 diagram generation,
each behind its own `AsyncLimiter(max_rate=60, time_period=60)`; every
other call site (questions, explanations, topics, chat, embeddings,
images, videos, book TOC) issues its call outside any limiter. -/
theorem C5_rate_limiter_coverage :
    allCallsLimited extract_subtopics_events = true
    ∧ allCallsLimited generate_axodraw_diagram_o3_events = true
    ∧ (llmCallSites.filter fun s => allCallsLimited s.2).map Prod.fst =
      ["subtopics.extract_subtopics", "diagrams.diagrams.generate_axodraw_diagram_o3"]
    ∧ subtopics_limiter = RateLimiter.mk 60 60
    ∧ diagrams_limiter = RateLimiter.mk 60 60 := by
  refine ⟨rfl, rfl, by decide, rfl, rfl⟩

/-- C7 fails on the code: the `/topics/extract` handler truncates the
agent's topic list to its first 10 entries (`output.topics[:10]`), so an
output with 11 topics is not mapped back unchanged. -/
theorem C7_counterexample :
    extract_lecture_topics (Except.ok (CourseContentOutput.mk
        ["t1", "t2", "t3", "t4", "t5", "t6", "t7", "t8", "t9", "t10", "t11"] "desc" ["r1"]))
      = RouteResult.ok (CourseContentOutput.mk
        ["t1", "t2", "t3", "t4", "t5", "t6", "t7", "t8", "t9", "t10"] "desc" ["r1"])
    ∧ extract_lecture_topics (Except.ok (CourseContentOutput.mk
        ["t1", "t2", "t3", "t4", "t5", "t6", "t7", "t8", "t9", "t10", "t11"] "desc" ["r1"]))
      ≠ RouteResult.ok (CourseContentOutput.mk
        ["t1", "t2", "t3", "t4", "t5", "t6", "t7", "t8", "t9", "t10", "t11"] "desc" ["r1"]) := by
  constructor
  · rfl
  · decide

/-- C7 amended: the route returns the description and recourses of the
external call's output unchanged, and the first `min(n, 10)` topics in
output order — the whole topic list only when it has at most 10 entries;
an exception is surfaced as HTTP 500 with its text. -/
theorem C7_topics_mapping (output : CourseContentOutput) :
    extract_lecture_topics (Except.ok output) =
      RouteResult.ok (CourseContentOutput.mk (output.topics.take 10)
        output.description output.recourses)
    ∧ (output.topics.length ≤ 10 →
        extract_lecture_topics (Except.ok output) = RouteResult.ok output)
    ∧ (output.topics.take 10).length = min output.topics.length 10
    ∧ (∀ m, extract_lecture_topics (Except.error m) = RouteResult.httpError 500 m) := by
  refine ⟨rfl, ?_, ?_, fun m => rfl⟩
  · intro hle
    have h1 : extract_lecture_topics (Except.ok output) =
        RouteResult.ok (CourseContentOutput.mk (output.topics.take 10)
          output.description output.recourses) := rfl
    have h2 : output.topics.take 10 = output.topics := List.take_of_length_le hle
    rw [h1, h2]
  · rw [List.length_take]
    omega

theorem C7_topics_mapping_witness :
    extract_lecture_topics (Except.ok (CourseContentOutput.mk ["a"] "d" ["r"]))
      = RouteResult.ok (CourseContentOutput.mk ["a"] "d" ["r"])
    ∧ extract_lecture_topics (Except.error "x") = RouteResult.httpError 500 "x" :=
  ⟨(C7_topics_mapping (CourseContentOutput.mk ["a"] "d" ["r"])).2.1 (by decide),
    (C7_topics_mapping (CourseContentOutput.mk ["a"] "d" ["r"])).2.2.2 "x"⟩

/-- C9: on success the `/diagram/generate` response carries the whole
generated document as `document_content` and its width and height are the
two numbers of the first `%% Diagram Size: WIDTH x HEIGHT` comment of that
document; when the document has no such comment the route answers HTTP 500
and returns no diagram fields. -/
theorem C9_diagram_size_extraction (output : String) :
    (searchDiagramSize output = none →
      generate_diagram (Except.ok output) =
        RouteResult.httpError 500 "Diagram size comment not found in the output.")
    ∧ (∀ ws hs w h, searchDiagramSize output = some (ws, hs) →
        parsePyFloat ws = some w → parsePyFloat hs = some h →
        generate_diagram (Except.ok output) =
          RouteResult.ok (AxodrawDiagramOutput.mk output w h)) := by
  constructor
  · intro hn
    simp [generate_diagram, generate_axodraw_diagram_o3, parse_axodraw_output, hn, wrapRoute]
  · intro ws hs w h h1 h2 h3
    simp [generate_diagram, generate_axodraw_diagram_o3, parse_axodraw_output,
      h1, h2, h3, wrapRoute]

theorem C9_diagram_size_extraction_witness :
    generate_diagram (Except.ok "no comment") =
      RouteResult.httpError 500 "Diagram size comment not found in the output."
    ∧ generate_diagram (Except.ok "%% Diagram Size: 300 x 200") =
      RouteResult.ok (AxodrawDiagramOutput.mk "%% Diagram Size: 300 x 200" 300 200) :=
  ⟨(C9_diagram_size_extraction "no comment").1 (by decide),
    (C9_diagram_size_extraction "%% Diagram Size: 300 x 200").2
      "300" "200" 300 200 (by decide) (by decide) (by decide)⟩

/-- C10 fails on the code: the two `get_diagram_size` implementations are
not equivalent — on the same TeX content with comment
`%% Diagram Size: 150 x 250`, the route module's version returns the
parsed pair increased by 200 in each coordinate while the standalone
script's version returns the parsed pair itself. -/
theorem C10_counterexample :
    pngcreator_get_diagram_size "%% Diagram Size: 150 x 250" = Except.ok (150, 250)
    ∧ diagrams_get_diagram_size "%% Diagram Size: 150 x 250"
      ≠ pngcreator_get_diagram_size "%% Diagram Size: 150 x 250" := by
  refine ⟨by decide, ?_⟩
  have hd : diagrams_get_diagram_size "%% Diagram Size: 150 x 250" =
      Except.ok ((150 : ℚ) + 200, (250 : ℚ) + 200) := rfl
  have hp : pngcreator_get_diagram_size "%% Diagram Size: 150 x 250" =
      Except.ok ((150 : ℚ), (250 : ℚ)) := by decide
  rw [hd, hp]
  intro h
  injection h with h1
  have h2 : (150 : ℚ) + 200 = 150 := congrArg Prod.fst h1
  norm_num at h2

/-- C10 amended: whenever the standalone script's `get_diagram_size`
returns a pair `(w, h)` for a TeX content, the route module's
`get_diagram_size` returns `(w + 200, h + 200)` for the same content —
identical search and parse, with 200 points added to each dimension. -/
theorem C10_get_diagram_size_refinement (content : String) (w h : ℚ)
    (hp : pngcreator_get_diagram_size content = Except.ok (w, h)) :
    diagrams_get_diagram_size content = Except.ok (w + 200, h + 200) := by
  unfold pngcreator_get_diagram_size at hp
  unfold diagrams_get_diagram_size
  rcases hsearch : searchDiagramSize content with _ | ⟨ws, hs⟩
  · simp only [hsearch] at hp
    cases hp
  · simp only [hsearch] at hp ⊢
    rcases hw : parsePyFloat ws with _ | w'
    · simp only [hw] at hp
      cases hp
    · simp only [hw] at hp ⊢
      rcases hh : parsePyFloat hs with _ | h'
      · simp only [hh] at hp
        cases hp
      · simp only [hh] at hp ⊢
        injection hp with hpair
        have hw' : w' = w := congrArg Prod.fst hpair
        have hh' : h' = h := congrArg Prod.snd hpair
        rw [hw', hh']

theorem C10_get_diagram_size_refinement_witness :
    pngcreator_get_diagram_size "%% Diagram Size: 150 x 250" = Except.ok (150, 250)
    ∧ diagrams_get_diagram_size "%% Diagram Size: 150 x 250" =
      Except.ok ((150 : ℚ) + 200, (250 : ℚ) + 200) :=
  ⟨by decide,
    C10_get_diagram_size_refinement "%% Diagram Size: 150 x 250" 150 250 (by decide)⟩

theorem length_flatMap_const {α β : Type} (l : List α) (g : α → List β) (k : Nat)
    (hg : ∀ a, (g a).length = k) : (l.flatMap g).length = k * l.length := by
  induction l with
  | nil => simp
  | cons a rest ih =>
    simp [List.flatMap_cons, hg, ih, Nat.mul_succ, Nat.add_comm]

theorem question_combo_length (mk6 : String → String → QuestionTask) :
    (difficulties.flatMap fun d => question_types.map fun q => mk6 d q).length = 6 := by
  simp [difficulties, question_types]

theorem run_question_generation_tasks_length
    (data : List LectureSubtopicsOutputModel) (em : String × String → String) :
    (run_question_generation_tasks data em).length
      = 6 * (data.map fun item => item.subtopics.length).sum := by
  induction data with
  | nil => rfl
  | cons item rest ih =>
    have hitem : ((item.subtopics.flatMap fun sub =>
        difficulties.flatMap fun difficulty =>
          question_types.map fun q_type =>
            QuestionTask.mk item.topic sub item.subtopics difficulty q_type
              (em (item.topic, sub))).length) = 6 * item.subtopics.length :=
      length_flatMap_const item.subtopics _ 6 fun sub =>
        question_combo_length fun difficulty q_type =>
          QuestionTask.mk item.topic sub item.subtopics difficulty q_type
            (em (item.topic, sub))
    simp only [run_question_generation_tasks, List.flatMap_cons, List.length_append,
      List.map_cons, List.sum_cons, Nat.mul_add] at *
    rw [hitem, ih]

/-- C4: the question endpoint issues exactly one generation call per
(subtopic occurrence, difficulty, question type) with the three
difficulties and two question types, 6 per subtopic occurrence; on success
the returned list has one entry per call, 6 times the total number of
subtopics across all data items. -/
theorem C4_question_fanout (data : List LectureSubtopicsOutputModel)
    (explanations : List ExplanationItem)
    (oracle : QuestionTask → Except String QuestionGenerationOutput)
    (results : List QuestionGenerationOutput)
    (h : run_question_generation data (build_explanation_map explanations) oracle
      = Except.ok results) :
    (run_question_generation_tasks data (build_explanation_map explanations)).length
      = 6 * (data.map fun item => item.subtopics.length).sum
    ∧ (∀ item ∈ data, ∀ sub ∈ item.subtopics, ∀ d ∈ difficulties, ∀ q ∈ question_types,
        ∃ t ∈ run_question_generation_tasks data (build_explanation_map explanations),
          t.topic = item.topic ∧ t.subtopic = sub ∧ t.other_subtopics = item.subtopics
          ∧ t.difficulty = d ∧ t.question_type = q)
    ∧ generate_questions_route data explanations oracle = RouteResult.ok results
    ∧ results.length = 6 * (data.map fun item => item.subtopics.length).sum := by
  have hlen : results.length =
      (run_question_generation_tasks data (build_explanation_map explanations)).length := by
    have := gatherResults_ok_length h
    rwa [List.length_map] at this
  refine ⟨run_question_generation_tasks_length data _, ?_, ?_, ?_⟩
  · intro item hitem sub hsub d hd q hq
    refine ⟨QuestionTask.mk item.topic sub item.subtopics d q
      (build_explanation_map explanations (item.topic, sub)), ?_, rfl, rfl, rfl, rfl, rfl⟩
    simp only [run_question_generation_tasks, List.mem_flatMap, List.mem_map]
    exact ⟨item, hitem, sub, hsub, d, hd, q, hq, rfl⟩
  · simp only [generate_questions_route, h, wrapRoute]
  · rw [hlen]
    exact run_question_generation_tasks_length data _

theorem C4_question_fanout_witness :
    run_question_generation [LectureSubtopicsOutputModel.mk "T" ["s"]]
      (build_explanation_map [])
      (fun t => Except.ok (QuestionGenerationOutput.mk t.topic t.subtopic t.difficulty
        t.question_type "q" [] "" t.subtopic_explanation))
      = Except.ok
        [QuestionGenerationOutput.mk "T" "s" "Easy" "Multiple Choice" "q" [] "" "",
         QuestionGenerationOutput.mk "T" "s" "Easy" "Open Answer" "q" [] "" "",
         QuestionGenerationOutput.mk "T" "s" "Medium" "Multiple Choice" "q" [] "" "",
         QuestionGenerationOutput.mk "T" "s" "Medium" "Open Answer" "q" [] "" "",
         QuestionGenerationOutput.mk "T" "s" "Hard" "Multiple Choice" "q" [] "" "",
         QuestionGenerationOutput.mk "T" "s" "Hard" "Open Answer" "q" [] "" ""]
    ∧ generate_questions_route [LectureSubtopicsOutputModel.mk "T" ["s"]] []
      (fun t => Except.ok (QuestionGenerationOutput.mk t.topic t.subtopic t.difficulty
        t.question_type "q" [] "" t.subtopic_explanation))
      = RouteResult.ok
        [QuestionGenerationOutput.mk "T" "s" "Easy" "Multiple Choice" "q" [] "" "",
         QuestionGenerationOutput.mk "T" "s" "Easy" "Open Answer" "q" [] "" "",
         QuestionGenerationOutput.mk "T" "s" "Medium" "Multiple Choice" "q" [] "" "",
         QuestionGenerationOutput.mk "T" "s" "Medium" "Open Answer" "q" [] "" "",
         QuestionGenerationOutput.mk "T" "s" "Hard" "Multiple Choice" "q" [] "" "",
         QuestionGenerationOutput.mk "T" "s" "Hard" "Open Answer" "q" [] "" ""]
    ∧ (6 : Nat) = 6 * ([LectureSubtopicsOutputModel.mk "T" ["s"]].map
        fun item => item.subtopics.length).sum :=
  ⟨by decide,
    (C4_question_fanout [LectureSubtopicsOutputModel.mk "T" ["s"]] []
      (fun t => Except.ok (QuestionGenerationOutput.mk t.topic t.subtopic t.difficulty
        t.question_type "q" [] "" t.subtopic_explanation))
      [QuestionGenerationOutput.mk "T" "s" "Easy" "Multiple Choice" "q" [] "" "",
       QuestionGenerationOutput.mk "T" "s" "Easy" "Open Answer" "q" [] "" "",
       QuestionGenerationOutput.mk "T" "s" "Medium" "Multiple Choice" "q" [] "" "",
       QuestionGenerationOutput.mk "T" "s" "Medium" "Open Answer" "q" [] "" "",
       QuestionGenerationOutput.mk "T" "s" "Hard" "Multiple Choice" "q" [] "" "",
       QuestionGenerationOutput.mk "T" "s" "Hard" "Open Answer" "q" [] "" ""]
      (by decide)).2.2.1,
    by decide⟩

/-- C6: in each batch endpoint, one failing generation task makes the whole
request answer HTTP 500 (whose payload is only the exception text: the
`httpError` constructor carries no result values), dropping the results of
the tasks that succeeded; the model issues each task's call exactly once,
with no retry path. -/
theorem C6_failure_discards_batch
    (qdata : List LectureSubtopicsOutputModel) (explanations : List ExplanationItem)
    (qoracle : QuestionTask → Except String QuestionGenerationOutput)
    (edata : List LectureSubtopicsOutputModel)
    (eoracle : ExplanationTask → Except String SubtopicExplanationOutput)
    (stopics sresources : List String)
    (soracle : String → Except String LectureSubtopicsOutput) :
    ((∃ t ∈ run_question_generation_tasks qdata (build_explanation_map explanations),
        ∃ e, qoracle t = Except.error e) →
      (∃ m, generate_questions_route qdata explanations qoracle
        = RouteResult.httpError 500 m)
      ∧ ∀ vs, generate_questions_route qdata explanations qoracle ≠ RouteResult.ok vs)
    ∧ ((∃ t ∈ run_explanation_generation_tasks edata, ∃ e, eoracle t = Except.error e) →
      (∃ m, generate_subtopic_explanations_route edata eoracle
        = RouteResult.httpError 500 m)
      ∧ ∀ vs, generate_subtopic_explanations_route edata eoracle ≠ RouteResult.ok vs)
    ∧ ((∃ t ∈ stopics, ∃ e,
          soracle (extract_subtopics_prompt t sresources) = Except.error e) →
      (∃ m, extract_lecture_subtopics stopics sresources soracle
        = RouteResult.httpError 500 m)
      ∧ ∀ vs, extract_lecture_subtopics stopics sresources soracle ≠ RouteResult.ok vs) := by
  refine ⟨?_, ?_, ?_⟩
  · rintro ⟨t, ht, e, he⟩
    have hmem : Except.error e ∈
        (run_question_generation_tasks qdata (build_explanation_map explanations)).map qoracle := by
      rw [← he]
      exact List.mem_map_of_mem qoracle ht
    rcases gatherResults_error_of_mem hmem with ⟨e', he'⟩
    refine ⟨⟨e', ?_⟩, ?_⟩
    · simp only [generate_questions_route, run_question_generation, he', wrapRoute]
    · intro vs
      simp only [generate_questions_route, run_question_generation, he', wrapRoute]
      intro hcon
      cases hcon
  · rintro ⟨t, ht, e, he⟩
    have hmem : Except.error e ∈ (run_explanation_generation_tasks edata).map eoracle := by
      rw [← he]
      exact List.mem_map_of_mem eoracle ht
    rcases gatherResults_error_of_mem hmem with ⟨e', he'⟩
    refine ⟨⟨e', ?_⟩, ?_⟩
    · simp only [generate_subtopic_explanations_route, run_explanation_generation, he',
        wrapRoute]
    · intro vs
      simp only [generate_subtopic_explanations_route, run_explanation_generation, he',
        wrapRoute]
      intro hcon
      cases hcon
  · rintro ⟨t, ht, e, he⟩
    have hmem : Except.error e ∈
        stopics.map fun tp => soracle (extract_subtopics_prompt tp sresources) := by
      rw [← he]
      exact List.mem_map_of_mem _ ht
    rcases gatherResults_error_of_mem hmem with ⟨e', he'⟩
    refine ⟨⟨e', ?_⟩, ?_⟩
    · simp only [extract_lecture_subtopics, run_subtopic_extraction, he', wrapRoute]
    · intro vs
      simp only [extract_lecture_subtopics, run_subtopic_extraction, he', wrapRoute]
      intro hcon
      cases hcon

theorem C6_failure_discards_batch_witness :
    (∃ m, generate_questions_route [LectureSubtopicsOutputModel.mk "T" ["s"]] []
      (fun _ => Except.error "boom") = RouteResult.httpError 500 m)
    ∧ (∃ m, generate_subtopic_explanations_route [LectureSubtopicsOutputModel.mk "T" ["s"]]
      (fun _ => Except.error "boom") = RouteResult.httpError 500 m)
    ∧ (∃ m, extract_lecture_subtopics ["T"] [] (fun _ => Except.error "boom")
      = RouteResult.httpError 500 m) :=
  ⟨((C6_failure_discards_batch [LectureSubtopicsOutputModel.mk "T" ["s"]] []
      (fun _ => Except.error "boom") [] (fun _ => Except.error "boom") [] []
      (fun _ => Except.error "boom")).1
      ⟨QuestionTask.mk "T" "s" ["s"] "Easy" "Multiple Choice" "", by decide,
        "boom", rfl⟩).1,
    ((C6_failure_discards_batch [] [] (fun _ => Except.error "boom")
      [LectureSubtopicsOutputModel.mk "T" ["s"]] (fun _ => Except.error "boom") [] []
      (fun _ => Except.error "boom")).2.1
      ⟨ExplanationTask.mk "T" "s" ["s"], by decide, "boom", rfl⟩).1,
    ((C6_failure_discards_batch [] [] (fun _ => Except.error "boom")
      [] (fun _ => Except.error "boom") ["T"] []
      (fun _ => Except.error "boom")).2.2
      ⟨"T", by decide, "boom", rfl⟩).1⟩

/-- C8: the subtopic endpoint runs one extraction call for every one of the
`n` requested topics, but serializes only the first `min(n, 10)` results
in request order, discarding those beyond the tenth. -/
theorem C8_subtopics_truncation (topics resources : List String)
    (oracle : String → Except String LectureSubtopicsOutput)
    (results : List LectureSubtopicsOutput)
    (h : run_subtopic_extraction topics resources oracle = Except.ok results) :
    extract_lecture_subtopics topics resources oracle = RouteResult.ok (results.take 10)
    ∧ results.length = topics.length
    ∧ (results.take 10).length = min topics.length 10
    ∧ (run_subtopic_extraction_calls topics resources).length = topics.length := by
  have hlen : results.length = topics.length := by
    have := gatherResults_ok_length h
    rwa [List.length_map] at this
  refine ⟨?_, hlen, ?_, ?_⟩
  · simp only [extract_lecture_subtopics, h, wrapRoute]
  · rw [List.length_take]
    omega
  · simp [run_subtopic_extraction_calls]

theorem C8_subtopics_truncation_witness :
    run_subtopic_extraction
        ["t1", "t2", "t3", "t4", "t5", "t6", "t7", "t8", "t9", "t10", "t11"] []
        (fun _ => Except.ok (LectureSubtopicsOutput.mk "x" []))
      = Except.ok (List.replicate 11 (LectureSubtopicsOutput.mk "x" []))
    ∧ extract_lecture_subtopics
        ["t1", "t2", "t3", "t4", "t5", "t6", "t7", "t8", "t9", "t10", "t11"] []
        (fun _ => Except.ok (LectureSubtopicsOutput.mk "x" []))
      = RouteResult.ok ((List.replicate 11 (LectureSubtopicsOutput.mk "x" [])).take 10)
    ∧ ((List.replicate 11 (LectureSubtopicsOutput.mk "x" [])).take 10).length
      = min ((["t1", "t2", "t3", "t4", "t5", "t6", "t7", "t8", "t9", "t10", "t11"] :
        List String).length) 10 :=
  ⟨by decide,
    (C8_subtopics_truncation
      ["t1", "t2", "t3", "t4", "t5", "t6", "t7", "t8", "t9", "t10", "t11"] []
      (fun _ => Except.ok (LectureSubtopicsOutput.mk "x" []))
      (List.replicate 11 (LectureSubtopicsOutput.mk "x" [])) (by decide)).1,
    (C8_subtopics_truncation
      ["t1", "t2", "t3", "t4", "t5", "t6", "t7", "t8", "t9", "t10", "t11"] []
      (fun _ => Except.ok (LectureSubtopicsOutput.mk "x" []))
      (List.replicate 11 (LectureSubtopicsOutput.mk "x" [])) (by decide)).2.2.1⟩

end Exolab
